import Mathlib

/-!
Verification of the agentfield Python SDK's execution-tracking runtime.

The development shallowly embeds the workflow-tracking glue of
`src/sdk/python/brain_sdk/decorators.py` and
`src/sdk/python/brain_sdk/agent_workflow.py`, together with the
collaborator components (`ExecutionContext`, `ExecutionState`,
`AsyncExecutionManager`, `StatelessRateLimiter`, `ResultCache`) whose
implementation modules are absent from the source tree and are therefore
modelled from the specification (spec.md sections 3-4).

Conventions of the embedding:
* Python exceptions become `Except`; a raised exception is `.error`.
* Wall-clock time is an explicit rational-number parameter.
* UUID generation is an explicit fresh-identifier parameter (or a counter
  threaded through the state).
* Emitted workflow notifications are collected in an event trace so that
  their presence and order can be stated.
-/

namespace AgentField

/-- Identity / propagation value object for one function invocation.

Modelled from the spec: the module `brain_sdk/execution_context.py` is not
under `src/` (only its callers in `decorators.py` and the tests import it);
the field list follows spec.md section 3 (`ExecutionContext`). -/
structure ExecutionContext where
  workflow_id : String
  execution_id : String
  parent_execution_id : Option String := none
  parent_workflow_id : Option String := none
  run_id : String
  session_id : Option String := none
  caller_did : Option String := none
  target_did : Option String := none
  agent_node_did : Option String := none
  reasoner_name : String
  registered : Bool := false
  timestamp : Nat := 0
deriving Repr, DecidableEq

/-- Modelled from the spec: `ExecutionContext.new_root` is in the missing
`brain_sdk/execution_context.py`; spec.md section 4.1 says it generates fresh
`workflow_id`/`execution_id`/`run_id` and leaves `parent_* = null`.  The
freshly generated identifiers and the creation time are explicit
parameters. -/
def ExecutionContext.new_root (agent_node_id reasoner_name : String)
    (freshWorkflowId freshExecutionId freshRunId : String) (now : Nat) :
    ExecutionContext :=
  { workflow_id := freshWorkflowId
    execution_id := freshExecutionId
    parent_execution_id := none
    parent_workflow_id := none
    run_id := freshRunId
    session_id := none
    caller_did := none
    target_did := none
    agent_node_did := some agent_node_id
    reasoner_name := reasoner_name
    registered := false
    timestamp := now }

/-- Modelled from the spec: `ExecutionContext.create_child_context` is in the
missing `brain_sdk/execution_context.py`; spec.md section 4.1 says it
generates a fresh `execution_id`, sets `parent_execution_id` /
`parent_workflow_id` to the parent's, copies `run_id`, `session_id`,
`caller_did`, `target_did`, `agent_node_did`, and sets `registered = false`.
The fresh identifier and creation time are explicit parameters. -/
def ExecutionContext.create_child_context (parent : ExecutionContext)
    (freshExecutionId : String) (now : Nat) : ExecutionContext :=
  { workflow_id := parent.workflow_id
    execution_id := freshExecutionId
    parent_execution_id := some parent.execution_id
    parent_workflow_id := some parent.workflow_id
    run_id := parent.run_id
    session_id := parent.session_id
    caller_did := parent.caller_did
    target_did := parent.target_did
    agent_node_did := parent.agent_node_did
    reasoner_name := parent.reasoner_name
    registered := false
    timestamp := now }

/-! ## The decorator tracking wrapper (`brain_sdk/decorators.py`) -/

/-- Exceptions that can escape `_execute_with_tracking`: a pydantic
`ValidationError` re-raised by the argument-conversion block, or any
exception raised by the wrapped function itself. -/
inductive PyErr where
  | validation (msg : String)
  | runtime (msg : String)
deriving Repr, DecidableEq

/-- Outcome of the automatic pydantic argument conversion
(`should_convert_args` / `convert_function_args`, an external collaborator
per spec.md section 1's out-of-scope list).  `decorators.py` lines 159-176:
a `ValidationError` is re-raised; any other conversion exception is logged
and execution continues with the original arguments. -/
inductive ConvertOutcome where
  | unchanged
  | converted
  | validationFailure (msg : String)
  | conversionError (msg : String)
deriving Repr, DecidableEq

/-- A tracked target function.  `accepts_execution_context` models
`"execution_context" in inspect.signature(func).parameters`; `run` receives
the injected context (`none` when not injected).  `Except.error` models the
function raising. -/
structure Target (α : Type) where
  name : String
  accepts_execution_context : Bool
  convertOutcome : ConvertOutcome
  run : Option ExecutionContext → Except String α

/-- The attributes of the agent instance that the tracking wrapper can see.
`current_execution_context` models the `_current_execution_context`
attribute read with `getattr(..., None)` (absent is identified with `None`);
`other_attrs` stands for every attribute the wrapper never touches, so that
frame conditions are statable. -/
structure AgentInstance where
  node_id : String
  dev_mode : Bool
  current_execution_context : Option ExecutionContext
  other_attrs : List (String × String)
deriving Repr, DecidableEq

/-- Ambient state visible to `_execute_with_tracking`: the thread/task-local
execution context (the `contextvars` variable read by `get_current_context`
and written by `set_execution_context` / `reset_execution_context`, whose
module is missing from `src/` and is modelled from spec.md sections 4.1 and
9 as scoped set/reset of a single slot), the current agent instance from the
global registry (`get_current_agent_instance`), and the fresh-identifier
counter standing for the UUID generator. -/
structure TrackState where
  task_local : Option ExecutionContext
  agent : Option AgentInstance
  next_fresh : Nat
deriving Repr, DecidableEq

/-- Fresh identifier produced by the `n`-th draw from the UUID supply. -/
def freshIdOf (n : Nat) : String := "fresh-" ++ toString n

/-- Embedding of `_execute_with_tracking` (`decorators.py` lines 95-185).

Control flow traced from the source:
* line 108: read the current context; line 111: read the agent registry;
* lines 113-118: with no agent instance, call the function directly (no
  injection, no conversion, no state mutation) and return / re-raise;
* lines 122-136: build a child context (fresh id, `reasoner_name`
  overwritten with the function name) when a current context exists,
  otherwise a root context named `node_id ++ "_" ++ name` (the
  `agent_instance` back-reference stored on the Python root context is not a
  spec field and does not appear in the model);
* lines 139-144: re-copy `run_id`, `session_id`, `caller_did`,
  `target_did`, `agent_node_did` from the parent;
* lines 146-147: save the previous `_current_execution_context` and install
  the new one; line 152: set the task-local slot, keeping the token (the
  previous slot value);
* lines 154-157: inject `execution_context` when the signature accepts it;
* lines 159-176: pydantic conversion — `ValidationError` is raised, other
  conversion errors are swallowed;
* lines 178-180: run the function; lines 182-185 (`finally`): reset the
  task-local slot from the token and restore the agent attribute on every
  exit path. -/
def decorators_execute_with_tracking (st : TrackState) (t : Target α)
    (now : Nat) : Except PyErr α × TrackState :=
  let current_context := st.task_local
  match st.agent with
  | none =>
      match t.run none with
      | .ok v => (.ok v, st)
      | .error e => (.error (.runtime e), st)
  | some agent_instance =>
      let built :
          ExecutionContext × Option ExecutionContext × TrackState :=
        match current_context with
        | some pc =>
            let c0 := pc.create_child_context (freshIdOf st.next_fresh) now
            ({ c0 with reasoner_name := t.name }, some pc,
              { st with next_fresh := st.next_fresh + 1 })
        | none =>
            let workflow_name := agent_instance.node_id ++ "_" ++ t.name
            let r0 := ExecutionContext.new_root agent_instance.node_id
                workflow_name (freshIdOf st.next_fresh)
                (freshIdOf (st.next_fresh + 1))
                (freshIdOf (st.next_fresh + 2)) now
            ({ r0 with reasoner_name := t.name }, none,
              { st with next_fresh := st.next_fresh + 3 })
      let parent_context := built.2.1
      let st1 := built.2.2
      let execution_context :=
        match parent_context with
        | some pc =>
            { built.1 with
              run_id := pc.run_id
              session_id := pc.session_id
              caller_did := pc.caller_did
              target_did := pc.target_did
              agent_node_did := pc.agent_node_did }
        | none => built.1
      let previous_agent_context := agent_instance.current_execution_context
      let agent2 :=
        { agent_instance with
          current_execution_context := some execution_context }
      let token := st1.task_local
      let st2 := { st1 with agent := some agent2,
                            task_local := some execution_context }
      let injected :=
        if t.accepts_execution_context then some execution_context else none
      let outcome : Except PyErr α :=
        match t.convertOutcome with
        | .validationFailure m => .error (.validation m)
        | _ =>
            match t.run injected with
            | .ok v => .ok v
            | .error e => .error (.runtime e)
      let agent3 :=
        { agent2 with current_execution_context := previous_agent_context }
      let st3 := { st2 with task_local := token, agent := some agent3 }
      (outcome, st3)

/-- The no-agent fallback of `_execute_with_tracking` (`decorators.py`
lines 113-118): call the function plainly, awaiting when it is a coroutine
function, with nothing injected. -/
def runPlain (t : Target α) : Except PyErr α :=
  match t.run none with
  | .ok v => .ok v
  | .error e => .error (.runtime e)

/-! ## Execution state machine (`brain_sdk/execution_state.py`) -/

/-- Modelled from the spec: `brain_sdk/execution_state.py` is not under
`src/` (only `tests/test_execution_state.py` imports it); the enumeration
follows spec.md section 4.3. -/
inductive ExecutionStatus where
  | queued
  | running
  | succeeded
  | failed
  | cancelled
  | timeout
deriving Repr, DecidableEq

/-- Modelled from the spec: `SUCCEEDED`, `FAILED`, `CANCELLED`, `TIMEOUT`
are the terminal statuses (spec.md section 4.3). -/
def ExecutionStatus.is_terminal : ExecutionStatus → Bool
  | .succeeded => true
  | .failed => true
  | .cancelled => true
  | .timeout => true
  | .queued => false
  | .running => false

/-- Modelled from the spec: `QUEUED`/`RUNNING` are active / non-terminal
(spec.md section 4.3). -/
def ExecutionStatus.is_active (s : ExecutionStatus) : Bool := !s.is_terminal

/-- Modelled from the spec: `brain_sdk/execution_state.py` is not under
`src/`; fields follow spec.md section 3 (`ExecutionState`), with values and
times kept as strings / rationals.  A state is created at submission in
`QUEUED`. -/
structure ExecutionState where
  execution_id : String
  target : String
  input_data : String
  status : ExecutionStatus := .queued
  result : Option String := none
  error_message : Option String := none
  poll_count : Nat := 0
  current_poll_interval : ℚ := 0
  next_poll_time : ℚ := 0
deriving Repr, DecidableEq

/-- Modelled from the spec: `update_status` moves between non-terminal
states or into any terminal state; no transition is defined out of a
terminal state — attempts are no-ops (spec.md section 4.3). -/
def ExecutionState.update_status (st : ExecutionState)
    (s : ExecutionStatus) : ExecutionState :=
  if st.status.is_terminal then st else { st with status := s }

/-- Modelled from the spec: `set_result` forces `SUCCEEDED` and records the
result; a no-op from a terminal state (spec.md sections 3 and 4.3). -/
def ExecutionState.set_result (st : ExecutionState) (v : String) :
    ExecutionState :=
  if st.status.is_terminal then st
  else { st with status := .succeeded, result := some v }

/-- Modelled from the spec: `set_error` forces `FAILED` and records the
message; a no-op from a terminal state (spec.md section 4.3). -/
def ExecutionState.set_error (st : ExecutionState) (m : String) :
    ExecutionState :=
  if st.status.is_terminal then st
  else { st with status := .failed, error_message := some m }

/-- Modelled from the spec: `cancel(reason)` forces `CANCELLED`, recording
the reason; a no-op from a terminal state (spec.md section 4.3). -/
def ExecutionState.cancel (st : ExecutionState) (reason : String) :
    ExecutionState :=
  if st.status.is_terminal then st
  else { st with status := .cancelled, error_message := some reason }

/-- Modelled from the spec: `timeout_execution` forces `TIMEOUT`; a no-op
from a terminal state (spec.md section 4.3). -/
def ExecutionState.timeout_execution (st : ExecutionState) :
    ExecutionState :=
  if st.status.is_terminal then st else { st with status := .timeout }

/-! ## Async execution manager admission (`brain_sdk/async_execution_manager.py`) -/

/-- Errors raised synchronously by `submit_execution`. -/
inductive SubmitError where
  | capacity
deriving Repr, DecidableEq

/-- Modelled from the spec: `brain_sdk/async_execution_manager.py` is not
under `src/` (only its tests import it); the model keeps the execution map
(as a list of states) and the configured concurrency limit, which is all
the admission check reads (spec.md section 4.4). -/
structure AsyncExecutionManager where
  executions : List ExecutionState
  max_concurrent_executions : Nat
deriving Repr, DecidableEq

/-- Number of tracked executions in an active (non-terminal) status. -/
def AsyncExecutionManager.active_count (m : AsyncExecutionManager) : Nat :=
  (m.executions.filter (fun e => e.status.is_active)).length

/-- Modelled from the spec: `submit_execution` rejects with a capacity
error if the number of active (non-terminal) tracked executions is at or
above `max_concurrent_executions`; completed entries never count.  On
success it stores a `QUEUED` `ExecutionState` under the server-assigned id
and returns that id (spec.md section 4.4).  The server-assigned id is an
explicit parameter; the HTTP round trip is outside the model. -/
def AsyncExecutionManager.submit_execution (m : AsyncExecutionManager)
    (target input_data server_execution_id : String) :
    Except SubmitError (String × AsyncExecutionManager) :=
  if m.max_concurrent_executions ≤ m.active_count then
    .error .capacity
  else
    let st : ExecutionState :=
      { execution_id := server_execution_id
        target := target
        input_data := input_data }
    .ok (server_execution_id, { m with executions := m.executions ++ [st] })

/-! ## Stateless rate limiter (`brain_sdk/rate_limiter.py`) -/

/-- Modelled from the spec: `brain_sdk/rate_limiter.py` is not under `src/`
(only `tests/test_rate_limiter_core.py` imports it); configuration knobs
follow spec.md section 4.5, with delays and times as rationals. -/
structure StatelessRateLimiter where
  max_retries : Nat := 5
  base_delay : ℚ := 1
  max_delay : ℚ := 60
  jitter_factor : ℚ := 1/10
  circuit_breaker_threshold : Nat := 5
  circuit_breaker_timeout : ℚ := 300
deriving Repr, DecidableEq

/-- Per-limiter-instance mutable counters (spec.md section 3): the
consecutive-failure count and the time the circuit opened (nullable). -/
structure RateLimiterState where
  consecutive_failures : Nat := 0
  circuit_open_time : Option ℚ := none
deriving Repr, DecidableEq

/-- Outcome of one invocation of the wrapped zero-argument operation on a
given attempt: success, a classified rate-limit error (optionally carrying
an explicit retry-after duration), or any other exception. -/
inductive OpOutcome (α : Type) where
  | success (v : α)
  | rateLimited (msg : String) (retry_after : Option ℚ)
  | failure (msg : String)
deriving Repr, DecidableEq

/-- Errors raised by `execute_with_retry`: circuit open, retries exhausted
(a rate-limit error embedding the last underlying message), or a
non-rate-limit exception re-raised unchanged. -/
inductive RLError where
  | circuitOpen
  | retriesExhausted (lastMsg : String)
  | passthrough (msg : String)
deriving Repr, DecidableEq

/-- Observable record of one `execute_with_retry` call: its outcome, the
final counter state, the sequence of sleeps performed, and how many times
the wrapped operation was invoked. -/
structure RetryTrace (α : Type) where
  outcome : Except RLError α
  final : RateLimiterState
  sleeps : List ℚ
  calls : Nat
deriving Repr

/-- Modelled from the spec: `_calculate_backoff_delay` of the missing
`brain_sdk/rate_limiter.py` (spec.md section 4.5 item 4, and
`tests/test_rate_limiter_core.py`).  When the error carried an explicit
retry-after duration that duration is used.  Otherwise the delay is
`min(max_delay, base_delay * 2^attempt)` plus symmetric jitter of
`± delay * jitter_factor`; `u attempt` is the value drawn from the RNG
seeded deterministically by the attempt number, scaled to `[-1, 1]`.  The
final delay is floored at the small positive minimum `0.1`. -/
def calculate_backoff_delay (cfg : StatelessRateLimiter) (u : Nat → ℚ)
    (attempt : Nat) (retry_after : Option ℚ) : ℚ :=
  match retry_after with
  | some r => r
  | none =>
      let delay := min cfg.max_delay (cfg.base_delay * 2 ^ attempt)
      let jitter := delay * cfg.jitter_factor * u attempt
      max (1/10) (delay + jitter)

/-- Modelled from the spec: the retry loop of `execute_with_retry`
(spec.md section 4.5 items 2-5).  `attempt` is the current attempt number,
`remaining` the number of retries still allowed.  Success resets the
counters; a non-rate-limit failure is re-raised immediately; a rate-limit
failure increments `consecutive_failures` and opens the circuit at the
threshold (recording the current time), then either raises — immediately
upon a just-opened circuit or once retries are exhausted — or sleeps for
the computed backoff and retries. -/
def retryFrom (cfg : StatelessRateLimiter) (now : ℚ) (u : Nat → ℚ)
    (op : Nat → OpOutcome α) :
    Nat → Nat → RateLimiterState → RetryTrace α
  | attempt, remaining, st =>
    match op attempt with
    | .success v =>
        { outcome := .ok v
          final := { consecutive_failures := 0, circuit_open_time := none }
          sleeps := []
          calls := 1 }
    | .failure m =>
        { outcome := .error (.passthrough m)
          final := st
          sleeps := []
          calls := 1 }
    | .rateLimited m retry_after =>
        let failures := st.consecutive_failures + 1
        let justOpened := cfg.circuit_breaker_threshold ≤ failures
        let st2 : RateLimiterState :=
          { consecutive_failures := failures
            circuit_open_time :=
              if justOpened then some now else st.circuit_open_time }
        if justOpened then
          { outcome := .error (.retriesExhausted m)
            final := st2
            sleeps := []
            calls := 1 }
        else
          match remaining with
          | 0 =>
              { outcome := .error (.retriesExhausted m)
                final := st2
                sleeps := []
                calls := 1 }
          | r + 1 =>
              let delay := calculate_backoff_delay cfg u attempt retry_after
              let rest := retryFrom cfg now u op (attempt + 1) r st2
              { outcome := rest.outcome
                final := rest.final
                sleeps := delay :: rest.sleeps
                calls := rest.calls + 1 }

/-- Modelled from the spec: `execute_with_retry` of the missing
`brain_sdk/rate_limiter.py` (spec.md section 4.5).  If the circuit is open
— the failure count is at or above `circuit_breaker_threshold` and the
circuit opened within the last `circuit_breaker_timeout` seconds — it fails
immediately without invoking the operation; otherwise it runs the retry
loop starting at attempt 0 with `max_retries` retries allowed.  `now` is
the clock reading (held fixed across the call, as in the tests' frozen
clock), `u` the per-attempt seeded jitter draw. -/
def execute_with_retry (cfg : StatelessRateLimiter)
    (st : RateLimiterState) (now : ℚ) (u : Nat → ℚ)
    (op : Nat → OpOutcome α) : RetryTrace α :=
  match st.circuit_open_time with
  | some t =>
      if cfg.circuit_breaker_threshold ≤ st.consecutive_failures ∧
          now - t < cfg.circuit_breaker_timeout then
        { outcome := .error .circuitOpen
          final := st
          sleeps := []
          calls := 0 }
      else retryFrom cfg now u op 0 cfg.max_retries st
  | none => retryFrom cfg now u op 0 cfg.max_retries st

/-! ## TTL/LRU result cache (`brain_sdk/result_cache.py`) -/

/-- A cached value together with its insertion time (spec.md section 3,
"Cache entry"). -/
structure CacheEntry where
  value : String
  inserted_at : ℚ
deriving Repr, DecidableEq

/-- Modelled from the spec: `brain_sdk/result_cache.py` is not under `src/`
(only `tests/test_result_cache.py` imports it).  Entries are kept in
recency order, least-recently-used first, most-recently-used last; the
stats counters follow `get_stats` (spec.md section 4.2). -/
structure ResultCache where
  entries : List (String × CacheEntry)
  ttl : ℚ
  max_size : Nat
  hits : Nat := 0
  misses : Nat := 0
  expirations : Nat := 0
  evictions : Nat := 0
deriving Repr, DecidableEq

/-- Remove the entry for `k`, preserving the recency order of the rest. -/
def eraseKey (k : String) (l : List (String × CacheEntry)) :
    List (String × CacheEntry) :=
  l.filter (fun p => p.1 != k)

/-- Modelled from the spec: `ResultCache.get` (spec.md section 4.2).  A
missing key counts as a miss.  An entry older than `ttl` is treated as
absent: it is removed, `expirations` is incremented and the access counts
as a miss — the lazy check that guarantees no value is returned past its
TTL even before the background sweep runs.  A present-and-fresh entry
counts as a hit and is promoted to most-recently-used (moved to the back).
`now` is the clock reading. -/
def ResultCache.get (c : ResultCache) (k : String) (now : ℚ) :
    Option String × ResultCache :=
  match c.entries.lookup k with
  | none => (none, { c with misses := c.misses + 1 })
  | some e =>
      if c.ttl < now - e.inserted_at then
        (none, { c with entries := eraseKey k c.entries,
                        expirations := c.expirations + 1,
                        misses := c.misses + 1 })
      else
        (some e.value, { c with entries := eraseKey k c.entries ++ [(k, e)],
                                hits := c.hits + 1 })

/-- Modelled from the spec: `ResultCache.set` (spec.md section 4.2).
Inserts or updates the entry as most-recently-used with the current time;
if the size then exceeds `max_size`, the least-recently-used entry (the
front) is evicted and `evictions` incremented. -/
def ResultCache.set (c : ResultCache) (k v : String) (now : ℚ) :
    ResultCache :=
  let entries2 := eraseKey k c.entries ++ [(k, ⟨v, now⟩)]
  if c.max_size < entries2.length then
    { c with entries := entries2.drop 1, evictions := c.evictions + 1 }
  else
    { c with entries := entries2 }

/-! ## Workflow notifications (`brain_sdk/agent_workflow.py`) -/

/-- A workflow lifecycle notification as observed on the timeline of
emitted events. -/
inductive WEvent where
  | start (reasoner : String)
  | complete (reasoner : String)
  | error (reasoner : String)
deriving Repr, DecidableEq

/-- `AgentWorkflow.notify_call_start` (`agent_workflow.py` lines 47-49):
a no-op placeholder for legacy callers — invoking it emits no events. -/
def AgentWorkflow.notify_call_start : List WEvent := []

/-- `AgentWorkflow.notify_call_complete` (`agent_workflow.py` lines 51-53):
a no-op placeholder for legacy callers — invoking it emits no events. -/
def AgentWorkflow.notify_call_complete : List WEvent := []

/-- `AgentWorkflow.notify_call_error` (`agent_workflow.py` lines 55-57):
a no-op placeholder for legacy callers — invoking it emits no events. -/
def AgentWorkflow.notify_call_error : List WEvent := []

/-- `AgentWorkflow.execute_with_tracking` (`agent_workflow.py` lines
23-45), embedded with an explicit event trace.  The body is run (its
result awaited when it is awaitable, lines 34-39, which the embedding
folds into `Except`); on success the result is returned, on exception
`dev_mode` triggers a `log_debug` only (lines 40-44) and the exception is
re-raised unchanged (line 45).  The source invokes none of the
`notify_call_*` methods, so the wrapper contributes no events of its own:
the emitted trace is exactly whatever the body emitted.  `body` produces
the tracked function's outcome together with the events emitted while it
ran (non-empty only when the body itself performs nested tracked calls). -/
def AgentWorkflow.execute_with_tracking (dev_mode : Bool)
    (body : Unit → Except String α × List WEvent) :
    Except String α × List WEvent :=
  match body () with
  | (.ok v, evs) => (.ok v, evs)
  | (.error e, evs) =>
      -- dev_mode only controls the debug log; the exception is re-raised.
      let _ := dev_mode
      (.error e, evs)

/-- A pair of nested tracked calls as in
`tests/test_agent_workflow.py::test_nested_reasoners_emit_child_completion_before_parent`:
the parent's body invokes the child through the tracking wrapper and
returns the child's result.  The value of the definition is the parent
call's outcome together with the full timeline of emitted events. -/
def nested_tracked_calls (dev_mode : Bool)
    (child_result : Except String α) : Except String α × List WEvent :=
  AgentWorkflow.execute_with_tracking dev_mode (fun _ =>
    AgentWorkflow.execute_with_tracking dev_mode (fun _ =>
      (child_result, [])))

/-! ## Concrete fixtures used by witnesses -/

/-- A terminal execution state, as produced by `set_result`. -/
def sampleTerminalState : ExecutionState :=
  { execution_id := "e1"
    target := "t"
    input_data := "d"
    status := .succeeded
    result := some "ok" }

/-- A parent context with every propagated field populated. -/
def sampleParentContext : ExecutionContext :=
  { workflow_id := "wf-1"
    execution_id := "exec-parent"
    run_id := "run-1"
    session_id := some "sess-1"
    caller_did := some "did-caller"
    target_did := some "did-target"
    agent_node_did := some "did-node"
    reasoner_name := "parent"
    registered := true
    timestamp := 5 }

/-- Ambient state with no agent instance available from the registry. -/
def sampleNoAgentState : TrackState :=
  { task_local := none, agent := none, next_fresh := 0 }

/-- A target whose result reveals whether a context was injected. -/
def sampleTarget : Target Nat :=
  { name := "sample"
    accepts_execution_context := true
    convertOutcome := .unchanged
    run := fun c => match c with
      | none => Except.ok 7
      | some _ => Except.ok 99 }

/-- A manager holding three completed executions and a limit of two, as in
`test_submit_execution_ignores_completed_entries_for_capacity`. -/
def sampleManager : AsyncExecutionManager :=
  { executions :=
      [ sampleTerminalState,
        { sampleTerminalState with execution_id := "e2", status := .cancelled },
        { sampleTerminalState with execution_id := "e3", status := .failed } ]
    max_concurrent_executions := 2 }

/-- The limiter configuration of `test_circuit_breaker_blocks_and_recovers`:
threshold 1, cool-down 5 seconds, no jitter, no retries. -/
def sampleLimiter : StatelessRateLimiter :=
  { max_retries := 0
    base_delay := 1/100
    max_delay := 60
    jitter_factor := 0
    circuit_breaker_threshold := 1
    circuit_breaker_timeout := 5 }

/-- An operation that always raises a classified rate-limit error. -/
def opAlwaysLimited : Nat → OpOutcome String :=
  fun _ => .rateLimited "rate limited" none

/-- An operation that succeeds immediately. -/
def opSucceeds : Nat → OpOutcome String :=
  fun _ => .success "ok"

/-- The limiter configuration of
`test_calculate_backoff_applies_jitter_and_max_cap`: base 0.5, jitter 0.3,
cap 1.0. -/
def sampleBackoffLimiter : StatelessRateLimiter :=
  { base_delay := 1/2
    jitter_factor := 3/10
    max_delay := 1 }

/-- A deterministic per-attempt jitter draw, scaled to `[-1, 1]`. -/
def sampleJitterDraw : Nat → ℚ := fun _ => 1/2

/-- A one-entry cache with `ttl = 0.1`, as in `test_cache_ttl_expiration`. -/
def sampleCache : ResultCache :=
  { entries := [("k", { value := "v", inserted_at := 0 })]
    ttl := 1/10
    max_size := 16 }

/-! ## Claim theorems -/

/-- Claim C1: the spec says the workflow tracking wrapper emits a "start"
notification on entry, a "complete" notification on success and an "error"
notification on exception.  Evaluating the embedded
`AgentWorkflow.execute_with_tracking` at a successful call and at a failing
call shows that the wrapper emits no notification whatsoever — the event
trace is empty on both exit paths (the `notify_call_*` methods are no-op
placeholders and are never invoked), while the result is returned and the
exception re-raised unchanged.  This contradicts the repository's own
tests (`tests/test_agent_workflow.py`), which assert the start/complete/
error events. -/
theorem tracked_call_emits_no_notifications :
    AgentWorkflow.execute_with_tracking false
      (fun _ => (Except.ok (7 : Nat), [])) = (Except.ok 7, []) ∧
    AgentWorkflow.execute_with_tracking true
      (fun _ => ((Except.error "boom" : Except String Nat), [])) =
      (Except.error "boom", []) := ⟨rfl, rfl⟩

/-- Claim C2: the spec says that for nested tracked calls the child's
completion notification is emitted strictly before the parent's.
Evaluating the embedded nested scenario of
`test_nested_reasoners_emit_child_completion_before_parent` shows the full
timeline of emitted events is empty — no completion notification is
emitted for either call (the test expects four lifecycle events), so the
claimed ordering guarantee has no events to order. -/
theorem nested_tracked_calls_empty_timeline :
    nested_tracked_calls false (Except.ok (1 : Nat)) = (Except.ok 1, []) :=
  rfl

/-- Claim C3: once an `ExecutionState` is in a terminal status, every one
of `update_status`, `set_result`, `set_error`, `cancel` and
`timeout_execution` is a no-op — the whole record (in particular `status`,
`result` and `error_message`) is unchanged. -/
theorem terminal_state_ops_are_noops (st : ExecutionState)
    (h : st.status.is_terminal = true) (s : ExecutionStatus)
    (v m r : String) :
    st.update_status s = st ∧ st.set_result v = st ∧ st.set_error m = st ∧
    st.cancel r = st ∧ st.timeout_execution = st := by
  simp [ExecutionState.update_status, ExecutionState.set_result,
    ExecutionState.set_error, ExecutionState.cancel,
    ExecutionState.timeout_execution, h]

/-- Concrete instance of the terminal no-op property on a `SUCCEEDED`
state. -/
theorem terminal_state_ops_are_noops_witness :
    sampleTerminalState.status.is_terminal = true ∧
    (sampleTerminalState.update_status .running = sampleTerminalState ∧
     sampleTerminalState.set_result "other" = sampleTerminalState ∧
     sampleTerminalState.set_error "late" = sampleTerminalState ∧
     sampleTerminalState.cancel "late" = sampleTerminalState ∧
     sampleTerminalState.timeout_execution = sampleTerminalState) :=
  ⟨rfl, terminal_state_ops_are_noops sampleTerminalState rfl
    .running "other" "late" "late"⟩

/-- Claim C6: `create_child_context` returns a child carrying the fresh
execution id (distinct from the parent's whenever the generated id is
fresh), `parent_execution_id` / `parent_workflow_id` pointing at the
parent, `run_id`, `session_id`, `caller_did`, `target_did` and
`agent_node_did` copied from the parent — these equalities hold for every
parent, so the fields are never independently assigned on the child — and
`registered = false`. -/
theorem create_child_context_spec (parent : ExecutionContext)
    (freshId : String) (now : Nat)
    (hfresh : freshId ≠ parent.execution_id) :
    (parent.create_child_context freshId now).execution_id = freshId ∧
    (parent.create_child_context freshId now).execution_id ≠
      parent.execution_id ∧
    (parent.create_child_context freshId now).parent_execution_id =
      some parent.execution_id ∧
    (parent.create_child_context freshId now).parent_workflow_id =
      some parent.workflow_id ∧
    (parent.create_child_context freshId now).run_id = parent.run_id ∧
    (parent.create_child_context freshId now).session_id =
      parent.session_id ∧
    (parent.create_child_context freshId now).caller_did =
      parent.caller_did ∧
    (parent.create_child_context freshId now).target_did =
      parent.target_did ∧
    (parent.create_child_context freshId now).agent_node_did =
      parent.agent_node_did ∧
    (parent.create_child_context freshId now).registered = false :=
  ⟨rfl, hfresh, rfl, rfl, rfl, rfl, rfl, rfl, rfl, rfl⟩

/-- Concrete instance of the child-context property on a fully populated
parent. -/
theorem create_child_context_spec_witness :
    (sampleParentContext.create_child_context "exec-child" 7).execution_id =
      "exec-child" ∧
    (sampleParentContext.create_child_context "exec-child" 7).execution_id ≠
      sampleParentContext.execution_id ∧
    (sampleParentContext.create_child_context "exec-child" 7).parent_execution_id =
      some sampleParentContext.execution_id ∧
    (sampleParentContext.create_child_context "exec-child" 7).parent_workflow_id =
      some sampleParentContext.workflow_id ∧
    (sampleParentContext.create_child_context "exec-child" 7).run_id =
      sampleParentContext.run_id ∧
    (sampleParentContext.create_child_context "exec-child" 7).session_id =
      sampleParentContext.session_id ∧
    (sampleParentContext.create_child_context "exec-child" 7).caller_did =
      sampleParentContext.caller_did ∧
    (sampleParentContext.create_child_context "exec-child" 7).target_did =
      sampleParentContext.target_did ∧
    (sampleParentContext.create_child_context "exec-child" 7).agent_node_did =
      sampleParentContext.agent_node_did ∧
    (sampleParentContext.create_child_context "exec-child" 7).registered =
      false :=
  create_child_context_spec sampleParentContext "exec-child" 7 (by decide)

/-- Claim C9: on every exit path of the decorator tracking wrapper —
normal return, a `ValidationError` from argument conversion, or an
exception from the wrapped function — the task-local execution context and
the agent instance's `_current_execution_context` attribute end up at the
values they held before the call, and no other attribute of the agent
instance is modified (the final agent record equals the initial one). -/
theorem execute_with_tracking_restores_contexts (st : TrackState)
    (t : Target α) (now : Nat) :
    ((decorators_execute_with_tracking st t now).2).task_local =
      st.task_local ∧
    ((decorators_execute_with_tracking st t now).2).agent = st.agent := by
  cases hag : st.agent with
  | none =>
      cases hr : t.run none <;>
        simp [decorators_execute_with_tracking, hag, hr]
  | some a =>
      cases hcc : st.task_local <;>
        simp [decorators_execute_with_tracking, hag, hcc]

/-- Claim C10: with no agent instance available from the registry, the
decorator tracking wrapper runs the target plainly — nothing is injected
(the function receives no context), the result or exception is propagated
unchanged, and the ambient state (task-local slot, registry, fresh-id
counter) is left exactly as it was. -/
theorem no_agent_plain_execution (st : TrackState) (t : Target α)
    (now : Nat) (h : st.agent = none) :
    decorators_execute_with_tracking st t now = (runPlain t, st) := by
  cases hr : t.run none <;>
    simp [decorators_execute_with_tracking, runPlain, h, hr]

/-- Concrete instance of the no-agent path: the target accepts an
execution context, yet receives none (it returns 7 only when called
without a context) and the state is untouched. -/
theorem no_agent_plain_execution_witness :
    decorators_execute_with_tracking sampleNoAgentState sampleTarget 0 =
      (Except.ok 7, sampleNoAgentState) :=
  (no_agent_plain_execution sampleNoAgentState sampleTarget 0 rfl).trans rfl

/-- Claim C5: `submit_execution` fails with a capacity error exactly when
the number of active (non-terminal) tracked executions is at or above
`max_concurrent_executions`; entries in a terminal status never count, so
when every tracked execution is terminal (and the limit is positive) a new
submission is accepted no matter how many completed entries remain. -/
theorem submit_execution_capacity (m : AsyncExecutionManager)
    (target input_data sid : String) :
    (m.submit_execution target input_data sid = .error .capacity ↔
      m.max_concurrent_executions ≤ m.active_count) ∧
    ((∀ e ∈ m.executions, e.status.is_terminal = true) →
      0 < m.max_concurrent_executions →
      ∃ m2, m.submit_execution target input_data sid = .ok (sid, m2)) := by
  constructor
  · by_cases h : m.max_concurrent_executions ≤ m.active_count <;>
      simp [AsyncExecutionManager.submit_execution, h]
  · intro hall hpos
    have hzero : m.active_count = 0 := by
      have hfilter : m.executions.filter (fun e => e.status.is_active) = [] := by
        rw [List.filter_eq_nil_iff]
        intro e he
        have := hall e he
        simp [ExecutionStatus.is_active, this]
      simp [AsyncExecutionManager.active_count, hfilter]
    have hlt : ¬ m.max_concurrent_executions ≤ m.active_count := by
      rw [hzero]; omega
    exact ⟨{ m with executions := m.executions ++
        [{ execution_id := sid, target := target,
           input_data := input_data }] },
      by simp [AsyncExecutionManager.submit_execution, hlt]⟩

/-- Concrete instance: three completed executions with a limit of two do
not block a new submission. -/
theorem submit_execution_capacity_witness :
    (¬ sampleManager.submit_execution "node.reasoner" "d" "exec-cap" =
      .error .capacity) ∧
    ∃ m2, sampleManager.submit_execution "node.reasoner" "d" "exec-cap" =
      .ok ("exec-cap", m2) := by
  refine ⟨fun hcontra => ?_, ?_⟩
  · exact absurd
      ((submit_execution_capacity sampleManager "node.reasoner" "d"
        "exec-cap").1.mp hcontra) (by decide)
  · exact (submit_execution_capacity sampleManager "node.reasoner" "d"
      "exec-cap").2 (by decide) (by decide)

/-- Claim C4: (a) while the circuit is open — the failure count is at or
above `circuit_breaker_threshold` and less than `circuit_breaker_timeout`
seconds have passed since it opened — `execute_with_retry` raises a
rate-limit error without invoking the operation and without touching the
counters; (b) a rate-limit failure that brings `consecutive_failures` to
the threshold opens the circuit, recording the current time; (c) once
`circuit_breaker_timeout` has elapsed, a call whose operation succeeds
returns its result, resets `consecutive_failures` to 0 and clears
`circuit_open_time`. -/
theorem circuit_breaker_blocks_and_recovers
    (cfg : StatelessRateLimiter) (st : RateLimiterState) (now t : ℚ)
    (u : Nat → ℚ) (op : Nat → OpOutcome α) (msg : String)
    (ra : Option ℚ) (v : α) :
    ((st.circuit_open_time = some t →
      cfg.circuit_breaker_threshold ≤ st.consecutive_failures →
      now - t < cfg.circuit_breaker_timeout →
      (execute_with_retry cfg st now u op).calls = 0 ∧
      (execute_with_retry cfg st now u op).outcome = .error .circuitOpen ∧
      (execute_with_retry cfg st now u op).final = st)) ∧
    ((st.circuit_open_time = none →
      op 0 = .rateLimited msg ra →
      cfg.circuit_breaker_threshold ≤ st.consecutive_failures + 1 →
      (execute_with_retry cfg st now u op).final.circuit_open_time =
        some now ∧
      (execute_with_retry cfg st now u op).outcome =
        .error (.retriesExhausted msg))) ∧
    ((st.circuit_open_time = some t →
      cfg.circuit_breaker_timeout ≤ now - t →
      op 0 = .success v →
      (execute_with_retry cfg st now u op).outcome = .ok v ∧
      (execute_with_retry cfg st now u op).final.consecutive_failures = 0 ∧
      (execute_with_retry cfg st now u op).final.circuit_open_time =
        none)) := by
  refine ⟨?_, ?_, ?_⟩
  · intro hopen hthresh helapsed
    have hcond : cfg.circuit_breaker_threshold ≤ st.consecutive_failures ∧
        now - t < cfg.circuit_breaker_timeout := ⟨hthresh, helapsed⟩
    simp [execute_with_retry, hopen, hcond]
  · intro hnone hop hthresh
    simp [execute_with_retry, hnone, retryFrom, hop, hthresh]
  · intro hopen hcool hop
    have hcond : ¬ (cfg.circuit_breaker_threshold ≤
        st.consecutive_failures ∧
        now - t < cfg.circuit_breaker_timeout) := by
      rintro ⟨-, hlt⟩
      exact absurd hlt (not_lt.mpr hcool)
    simp [execute_with_retry, hopen, hcond, retryFrom, hop]

/-- Concrete instance mirroring `test_circuit_breaker_blocks_and_recovers`:
threshold 1, cool-down 5s.  A rate-limited call at time 100 opens the
circuit; a call at time 102 is blocked without invoking its operation; a
successful call at time 110 returns and clears the breaker state. -/
theorem circuit_breaker_blocks_and_recovers_witness :
    ((execute_with_retry sampleLimiter
        { consecutive_failures := 0, circuit_open_time := none } 100
        sampleJitterDraw opAlwaysLimited).final.circuit_open_time =
      some 100 ∧
     (execute_with_retry sampleLimiter
        { consecutive_failures := 0, circuit_open_time := none } 100
        sampleJitterDraw opAlwaysLimited).outcome =
      .error (.retriesExhausted "rate limited")) ∧
    ((execute_with_retry sampleLimiter
        { consecutive_failures := 1, circuit_open_time := some 100 } 102
        sampleJitterDraw opSucceeds).calls = 0 ∧
     (execute_with_retry sampleLimiter
        { consecutive_failures := 1, circuit_open_time := some 100 } 102
        sampleJitterDraw opSucceeds).outcome = .error .circuitOpen ∧
     (execute_with_retry sampleLimiter
        { consecutive_failures := 1, circuit_open_time := some 100 } 102
        sampleJitterDraw opSucceeds).final =
      { consecutive_failures := 1, circuit_open_time := some 100 }) ∧
    ((execute_with_retry sampleLimiter
        { consecutive_failures := 1, circuit_open_time := some 100 } 110
        sampleJitterDraw opSucceeds).outcome = .ok "ok" ∧
     (execute_with_retry sampleLimiter
        { consecutive_failures := 1, circuit_open_time := some 100 } 110
        sampleJitterDraw opSucceeds).final.consecutive_failures = 0 ∧
     (execute_with_retry sampleLimiter
        { consecutive_failures := 1, circuit_open_time := some 100 } 110
        sampleJitterDraw opSucceeds).final.circuit_open_time = none) := by
  refine ⟨?_, ?_, ?_⟩
  · exact (circuit_breaker_blocks_and_recovers sampleLimiter
      { consecutive_failures := 0, circuit_open_time := none } 100 0
      sampleJitterDraw opAlwaysLimited "rate limited" none "ok").2.1
      rfl rfl (by decide)
  · exact (circuit_breaker_blocks_and_recovers sampleLimiter
      { consecutive_failures := 1, circuit_open_time := some 100 } 102 100
      sampleJitterDraw opSucceeds "rate limited" none "ok").1
      rfl (by decide) (by norm_num [sampleLimiter])
  · exact (circuit_breaker_blocks_and_recovers sampleLimiter
      { consecutive_failures := 1, circuit_open_time := some 100 } 110 100
      sampleJitterDraw opSucceeds "rate limited" none "ok").2.2
      rfl (by norm_num [sampleLimiter]) rfl

/-- Claim C7: with no explicit retry-after value, the backoff for attempt
`n` is `min(max_delay, base_delay * 2^n)` plus a jitter term whose
magnitude is bounded by `delay * jitter_factor` (the term is the
deterministic per-attempt seeded draw scaled into the symmetric range),
with the final delay floored at the small positive minimum `0.1`; when the
error carries an explicit retry-after duration, that duration is used
instead. -/
theorem calculate_backoff_delay_spec (cfg : StatelessRateLimiter)
    (u : Nat → ℚ) (n : Nat) (r : ℚ)
    (hb : 0 ≤ cfg.base_delay) (hm : 0 ≤ cfg.max_delay)
    (hj : 0 ≤ cfg.jitter_factor) (hu : |u n| ≤ 1) :
    calculate_backoff_delay cfg u n (some r) = r ∧
    ∃ j, |j| ≤ min cfg.max_delay (cfg.base_delay * 2 ^ n) *
        cfg.jitter_factor ∧
      calculate_backoff_delay cfg u n none =
        max (1/10) (min cfg.max_delay (cfg.base_delay * 2 ^ n) + j) := by
  refine ⟨rfl, ⟨min cfg.max_delay (cfg.base_delay * 2 ^ n) *
    cfg.jitter_factor * u n, ?_, rfl⟩⟩
  have hd : 0 ≤ min cfg.max_delay (cfg.base_delay * 2 ^ n) :=
    le_min hm (mul_nonneg hb (pow_nonneg (by norm_num) n))
  calc |min cfg.max_delay (cfg.base_delay * 2 ^ n) * cfg.jitter_factor *
        u n|
      = |min cfg.max_delay (cfg.base_delay * 2 ^ n) * cfg.jitter_factor| *
        |u n| := abs_mul _ _
    _ ≤ |min cfg.max_delay (cfg.base_delay * 2 ^ n) * cfg.jitter_factor| *
        1 := by
          exact mul_le_mul_of_nonneg_left hu (abs_nonneg _)
    _ = min cfg.max_delay (cfg.base_delay * 2 ^ n) * cfg.jitter_factor :=
        by rw [mul_one, abs_of_nonneg (mul_nonneg hd hj)]

/-- Concrete instance mirroring
`test_calculate_backoff_applies_jitter_and_max_cap` (attempt 4, cap 1.0)
and `test_calculate_backoff_prefers_retry_after` (retry-after 2.5). -/
theorem calculate_backoff_delay_spec_witness :
    calculate_backoff_delay sampleBackoffLimiter sampleJitterDraw 4
      (some (5/2)) = 5/2 ∧
    ∃ j, |j| ≤ min sampleBackoffLimiter.max_delay
        (sampleBackoffLimiter.base_delay * 2 ^ 4) *
        sampleBackoffLimiter.jitter_factor ∧
      calculate_backoff_delay sampleBackoffLimiter sampleJitterDraw 4
        none =
        max (1/10) (min sampleBackoffLimiter.max_delay
          (sampleBackoffLimiter.base_delay * 2 ^ 4) + j) :=
  calculate_backoff_delay_spec sampleBackoffLimiter sampleJitterDraw 4
    (5/2) (by norm_num [sampleBackoffLimiter])
    (by norm_num [sampleBackoffLimiter])
    (by norm_num [sampleBackoffLimiter])
    (by norm_num [sampleJitterDraw, abs_le])

/-- Claim C8: for a key present in the cache, `get` after more than `ttl`
seconds have elapsed since insertion returns absent, removes the entry,
increments `expirations` and counts the access as a miss — so a stale
value is never returned even before the background sweep runs — while
`get` on a present-and-fresh entry returns the stored value, counts a hit
and promotes the entry to most-recently-used (the back of the recency
order). -/
theorem cache_get_ttl_and_promotion (c : ResultCache) (k : String)
    (now : ℚ) (e : CacheEntry)
    (hmem : c.entries.lookup k = some e) :
    (c.ttl < now - e.inserted_at →
      (c.get k now).1 = none ∧
      ((c.get k now).2).entries = eraseKey k c.entries ∧
      ((c.get k now).2).expirations = c.expirations + 1 ∧
      ((c.get k now).2).misses = c.misses + 1) ∧
    (now - e.inserted_at ≤ c.ttl →
      (c.get k now).1 = some e.value ∧
      ((c.get k now).2).hits = c.hits + 1 ∧
      ((c.get k now).2).entries = eraseKey k c.entries ++ [(k, e)]) := by
  constructor
  · intro hstale
    simp [ResultCache.get, hmem, hstale]
  · intro hfresh
    simp [ResultCache.get, hmem, not_lt.mpr hfresh]

/-- Concrete instance mirroring `test_cache_ttl_expiration`: an entry
inserted at time 0 with `ttl = 0.1` is absent (expired, counted) at time 1
and returned (hit, promoted) at time 0.05. -/
theorem cache_get_ttl_and_promotion_witness :
    ((sampleCache.get "k" 1).1 = none ∧
     ((sampleCache.get "k" 1).2).entries = eraseKey "k" sampleCache.entries ∧
     ((sampleCache.get "k" 1).2).expirations =
       sampleCache.expirations + 1 ∧
     ((sampleCache.get "k" 1).2).misses = sampleCache.misses + 1) ∧
    ((sampleCache.get "k" (1/20)).1 = some "v" ∧
     ((sampleCache.get "k" (1/20)).2).hits = sampleCache.hits + 1 ∧
     ((sampleCache.get "k" (1/20)).2).entries =
       eraseKey "k" sampleCache.entries ++
         [("k", { value := "v", inserted_at := 0 })]) := by
  constructor
  · exact (cache_get_ttl_and_promotion sampleCache "k" 1
      { value := "v", inserted_at := 0 } rfl).1 (by norm_num [sampleCache])
  · exact (cache_get_ttl_and_promotion sampleCache "k" (1/20)
      { value := "v", inserted_at := 0 } rfl).2 (by norm_num [sampleCache])

end AgentField
